import Mathlib

/-!
Shallow embedding of the sa_api gateway core (src/application/api) in Lean 4:
the token-extraction pipeline, the Keycloak key cache, the query-string
parser, the main dispatcher and the person/speech sub-routers, together with
theorems settling the specification claims about them.

External library functions (the jsonwebtoken crate, the uuid crate, chrono
date parsing, serde deserialization, reqwest networking) are modelled as
explicit function parameters bundled in environment structures; everything
the repository itself implements is translated directly from the source.
-/

set_option maxRecDepth 4096

namespace SaApi

/-! ## Rust string splitting

Rust's `str::split(pattern)` for a non-empty literal pattern: non-overlapping
matches scanned left to right, keeping empty pieces.  Implemented on the
character list with explicit fuel so that every definition reduces in the
kernel. -/

/-- Strip `sep` from the front of `cs`; `some rest` on a match. -/
def dropSep : List Char → List Char → Option (List Char)
  | [], cs => some cs
  | _ :: _, [] => none
  | p :: ps, c :: cs => if c = p then dropSep ps cs else none

/-- Fuel-driven splitting loop: `acc` is the current piece, reversed. -/
def splitLoop (sep : List Char) : Nat → List Char → List Char → List (List Char)
  | 0, cs, acc => [acc.reverse ++ cs]
  | fuel + 1, cs, acc =>
    match cs with
    | [] => [acc.reverse]
    | c :: rest =>
      match dropSep sep cs with
      | some rest' => acc.reverse :: splitLoop sep fuel rest' []
      | none => splitLoop sep fuel rest (c :: acc)

/-- Model of Rust `s.split(sep)` (collected to a list) for non-empty `sep`. -/
def rsSplit (s sep : String) : List String :=
  (splitLoop sep.data (s.data.length + 1) s.data []).map (fun cs => ⟨cs⟩)

/-- Model of Rust `Vec::join(sep)`. -/
def rsJoin (sep : String) : List String → String
  | [] => ""
  | [s] => s
  | s :: rest => s ++ sep ++ rsJoin sep rest

/-- Boolean test that `p` occurs at the start of `s`. -/
def beginsWith (p s : String) : Bool := (dropSep p.data s.data).isSome

/-! ## Error and permission data model (router.rs, token.rs) -/

/-- HttpError from router.rs: {code, error, details}. -/
structure HttpError where
  code : Nat
  error : String
  details : String
deriving DecidableEq

def HttpError.new (code : Nat) (error details : String) : HttpError :=
  ⟨code, error, details⟩

def INTERNAL_ERROR : HttpError :=
  ⟨500, "InternalError", "An internal error occured, please contact our technical service"⟩

def NOT_FOUND_ERROR : HttpError :=
  ⟨404, "NotFound", "The requested resource is not found"⟩

def ACCESS_DENIED_ERROR : HttpError :=
  ⟨403, "AccessDenied", "You cannot access to this ressource"⟩

/-- The closed permission enum of token.rs. -/
inductive Permissions where
  | GetSpeech
  | CreateSpeech
  | DeleteSpeech
  | UpdateSpeech
  | GetPerson
  | CreatePerson
  | UpdatePerson
  | DeletePerson
deriving DecidableEq

/-- AuthToken of token.rs: optional identity plus a permission list. -/
structure AuthToken where
  user_id : Option String
  username : Option String
  permissions : List Permissions
deriving DecidableEq

/-- AuthToken::default — the anonymous principal. -/
def AuthToken.default : AuthToken :=
  ⟨none, none, [Permissions.GetPerson, Permissions.GetSpeech]⟩

/-! ## jsonwebtoken library model -/

/-- A verification key handle (jsonwebtoken DecodingKey), identified by the
RSA components it was built from. -/
structure DecodingKey where
  n : String
  e : String
deriving DecidableEq

/-- The decoded JWT header; the code only reads its kid field. -/
structure JwtHeader where
  kid : Option String
deriving DecidableEq

/-- jsonwebtoken Validation: algorithm list plus expected audience. -/
structure Validation where
  algorithms : List String
  aud : Option (List String)
deriving DecidableEq

def Validation.new (alg : String) : Validation := ⟨[alg], none⟩

def Validation.set_audience (v : Validation) (a : List String) : Validation :=
  ⟨v.algorithms, some a⟩

/-- External behaviour of the jsonwebtoken crate: header decoding and full
decode-and-verify.  Both may fail for any of the library's reasons
(undecodable header, bad signature, wrong algorithm, expiry, wrong audience,
unparseable claims); the model only observes success or failure. -/
structure JwtLib where
  decode_header : String → Except String JwtHeader
  decode : String → DecodingKey → Validation → Except String AuthToken

/-! ## Association-list model of HashMap -/

/-- HashMap::insert — replaces an existing binding for the key. -/
def insertAssoc {α : Type} (m : List (String × α)) (k : String) (v : α) :
    List (String × α) :=
  match m with
  | [] => [(k, v)]
  | (k', v') :: rest =>
    if k' = k then (k, v) :: rest else (k', v') :: insertAssoc rest k v

/-- HashMap::get. -/
def lookupAssoc {α : Type} (m : List (String × α)) (k : String) : Option α :=
  match m with
  | [] => none
  | (k', v') :: rest => if k' = k then some v' else lookupAssoc rest k

/-! ## get_query_params_from_raw (router.rs) -/

/-- Translation of get_query_params_from_raw: split the raw query on `&`,
split each segment on `=`, insert the first two pieces as key/value when
both exist. -/
def get_query_params_from_raw (raw_params : String) : List (String × String) :=
  (rsSplit raw_params "&").foldl
    (fun m query_param =>
      match rsSplit query_param "=" with
      | var :: val :: _ => insertAssoc m var val
      | _ => m)
    []

/-! ## extract_token (router.rs) -/

/-- The uniform invalid-token error built at the top of extract_token. -/
def invalid_token : HttpError :=
  HttpError.new 400 "InvalidToken" "The token you provided is invalid"

/-- The Validation value built in extract_token: RS256 only, audience fixed
to the front-end identifier. -/
def expected_validation : Validation :=
  (Validation.new "RS256").set_audience ["speech-analytics-front-end"]

/-- The tail of extract_token after the Bearer-prefix step: decode the
header, read the kid, look the key up, decode-and-verify the token. -/
def verify_token_part (jwt : JwtLib) (token_part : String)
    (keys : List (String × DecodingKey)) : Except HttpError AuthToken :=
  match jwt.decode_header token_part with
  | Except.error _ => Except.error invalid_token
  | Except.ok header =>
    match header.kid with
    | none => Except.error invalid_token
    | some kid =>
      match lookupAssoc keys kid with
      | none => Except.error invalid_token
      | some decoding_key =>
        match jwt.decode token_part decoding_key expected_validation with
        | Except.error _ => Except.error invalid_token
        | Except.ok decoded => Except.ok decoded

/-- Translation of extract_token: empty header value yields the default
token; otherwise the token part is the second piece of splitting the raw
value on the literal `Bearer ` (Rust split(..).skip(1).next()), and the
pipeline continues with it. -/
def extract_token (jwt : JwtLib) (raw_token : String)
    (keys : List (String × DecodingKey)) : Except HttpError AuthToken :=
  if raw_token = "" then Except.ok AuthToken.default
  else
    match (rsSplit raw_token "Bearer ").drop 1 with
    | [] => Except.error invalid_token
    | token_part :: _ => verify_token_part jwt token_part keys

/-! ## Keycloak key cache (keycloak.rs) -/

/-- One entry of the JWKS document. -/
structure KeycloakKey where
  kid : String
  n : String
  e : String
  kty : String
deriving DecidableEq

/-- The JWKS document. -/
structure KeycloakCerts where
  keys : List KeycloakKey
deriving DecidableEq

/-- The cache state guarded by the mutex: key map plus fetch instant
(modelled as an absolute Nat timestamp in seconds). -/
structure CachedKeys where
  keys : List (String × DecodingKey)
  last_fetched : Nat
deriving DecidableEq

/-- External behaviour around get_keycloak_keys: the current instant, the
environment-variable lookup, the HTTP GET, the JSON parse of the response,
and DecodingKey::from_rsa_components. -/
structure KeycloakLib where
  now : Nat
  env_certs_url : Except String String
  http_get : String → Except String String
  parse_certs : String → Except String KeycloakCerts
  from_rsa_components : String → String → Except String DecodingKey

/-- The key-building loop of get_keycloak_keys: keep RSA entries, abort the
whole call when from_rsa_components fails, skip non-RSA entries silently. -/
def build_keys (kc : KeycloakLib) :
    List KeycloakKey → List (String × DecodingKey) →
    Except String (List (String × DecodingKey))
  | [], acc => Except.ok acc
  | key :: rest, acc =>
    if key.kty = "RSA" then
      match kc.from_rsa_components key.n key.e with
      | Except.error e => Except.error e
      | Except.ok decoding_key => build_keys kc rest (insertAssoc acc key.kid decoding_key)
    else build_keys kc rest acc

/-- Translation of get_keycloak_keys, state-passing on the cache.  The third
component records whether the remote endpoint was contacted. -/
def get_keycloak_keys (kc : KeycloakLib) (cache : CachedKeys) :
    Except String (List (String × DecodingKey)) × CachedKeys × Bool :=
  if kc.now - cache.last_fetched < 3600 then
    (Except.ok cache.keys, cache, false)
  else
    match kc.env_certs_url with
    | Except.error e => (Except.error e, cache, false)
    | Except.ok jwks_url =>
      match kc.http_get jwks_url with
      | Except.error e => (Except.error e, cache, true)
      | Except.ok response =>
        match kc.parse_certs response with
        | Except.error e => (Except.error e, cache, true)
        | Except.ok keycloak_certs =>
          match build_keys kc keycloak_certs.keys [] with
          | Except.error e => (Except.error e, cache, true)
          | Except.ok keys => (Except.ok keys, ⟨keys, kc.now⟩, true)

/-! ## Domain entities (domain/person, domain/speech) -/

/-- Uuid handle (uuid crate), identified by its canonical string form. -/
structure Uuid where
  val : String
deriving DecidableEq

/-- chrono NaiveDate handle, identified by its display form. -/
structure NaiveDate where
  val : String
deriving DecidableEq

/-- chrono DateTime of Utc handle, identified by its RFC 3339 form. -/
structure UtcDateTime where
  val : String
deriving DecidableEq

/-- Person entity (domain/person/person.rs). -/
structure Person where
  uid : Uuid
  name : String
  first_name : String
  birth_date : NaiveDate
  trust_score : Nat
  lie_quantity : Nat
deriving DecidableEq

def Person.new (uid : Uuid) (name first_name : String) (birth_date : NaiveDate)
    (trust_score lie_quantity : Nat) : Person :=
  ⟨uid, name, first_name, birth_date, trust_score, lie_quantity⟩

/-- Sentence entity (domain/speech/sentence.rs). -/
structure Sentence where
  uid : Uuid
  speaker : Uuid
  text : String
  interrupted : Bool
deriving DecidableEq

def Sentence.new (uid speaker : Uuid) (text : String) (interrupted : Bool) :
    Sentence := ⟨uid, speaker, text, interrupted⟩

/-- Speech status enum (domain/speech/speech.rs). -/
inductive SpeechStatus where
  | Pending
  | Validated
deriving DecidableEq

/-- Speech entity (domain/speech/speech.rs). -/
structure Speech where
  uid : Uuid
  name : String
  date : UtcDateTime
  speakers : List Uuid
  sentences : List Sentence
  media : String
  speech_status : SpeechStatus
deriving DecidableEq

def Speech.new (uid : Uuid) (name : String) (date : UtcDateTime)
    (speakers : List Uuid) (sentences : List Sentence) (media : String)
    (speech_status : SpeechStatus) : Speech :=
  ⟨uid, name, date, speakers, sentences, media, speech_status⟩

/-- Repository error enum for persons. -/
inductive PersonRepositoryError where
  | PersonNotFound
  | PersonAlreadyExists
  | InternalError (msg : String)
deriving DecidableEq

/-- Repository error enum for speeches. -/
inductive SpeechRepositoryError where
  | PersonError (e : PersonRepositoryError)
  | SpeechNotFound
  | SpeechAlreadyExists
  | InternalError (msg : String)
deriving DecidableEq

/-- PersonManager as an oracle: the outcome each domain call would have. -/
structure PersonManager where
  create_person : Person → Except PersonRepositoryError Unit
  get_people : Nat → Nat → Except PersonRepositoryError (List Person)
  get_person_by_id : Uuid → Except PersonRepositoryError Person
  delete_person : Uuid → Except PersonRepositoryError Unit

/-- SpeechManager as an oracle. -/
structure SpeechManager where
  create_speech : Speech → Except SpeechRepositoryError Unit
  get_speech : Nat → Nat → List Uuid → Except SpeechRepositoryError (List Speech)
  get_speech_by_id : Uuid → Except SpeechRepositoryError Speech
  delete_speech : Uuid → Except SpeechRepositoryError Unit

/-- One record per domain-manager invocation, so that theorems can state
that no side effect occurred. -/
inductive ManagerCall where
  | create_person (p : Person)
  | get_people (page quantity : Nat)
  | get_person_by_id (uid : Uuid)
  | delete_person (uid : Uuid)
  | create_speech (s : Speech)
  | get_speech (page quantity : Nat) (speakers : List Uuid)
  | get_speech_by_id (uid : Uuid)
  | delete_speech (uid : Uuid)
deriving DecidableEq

/-- The HTTP methods the routers distinguish (hyper::Method). -/
inductive Method where
  | GET
  | POST
  | DELETE
  | PUT
  | OPTIONS
deriving DecidableEq

/-! ## serde_json values and the external parsing environment -/

/-- serde_json::Value. -/
inductive Value where
  | null
  | bool (b : Bool)
  | num (n : Int)
  | str (s : String)
  | arr (xs : List Value)
  | obj (fields : List (String × Value))

/-- Body shape accepted by the person create route (camelCase fields). -/
structure CreatePersonInput where
  name : String
  first_name : String
  birth_date : String

/-- Body shape of one sentence in the speech create route. -/
structure CreateSpeechSentenceInput where
  speaker : String
  text : String
  interrupted : Bool

/-- Body shape accepted by the speech create route. -/
structure CreateSpeechInput where
  name : String
  date : String
  speakers : List String
  sentences : List CreateSpeechSentenceInput
  media : String

/-- External library behaviour used by the sub-routers: uuid parsing and
generation (uuid crate), date parsing (chrono) and serde deserialization of
the request bodies.  fresh models Uuid::new_v4, indexed by call site. -/
structure ExtLib where
  uuid_from_str : String → Option Uuid
  fresh : Nat → Uuid
  naive_date_from_str : String → Option NaiveDate
  datetime_from_str : String → Option UtcDateTime
  parse_create_person : Value → Option CreatePersonInput
  parse_create_speech : Value → Option CreateSpeechInput

/-- Rust str::parse for u16: optional leading plus sign, at least one
digit, digits only, value within the u16 range. -/
def parseU16 (s : String) : Option Nat :=
  let cs := s.data
  let digits := match cs with
    | '+' :: rest => rest
    | _ => cs
  if digits = [] then none
  else if digits.all (fun c => c.isDigit) then
    let n := digits.foldl (fun acc c => acc * 10 + (c.toNat - '0'.toNat)) 0
    if n ≤ 65535 then some n else none
  else none

/-! ## Person sub-router (person/person_router.rs) -/

/-- TryFrom of CreatePersonInput for Person: parse the birth date, then
build the person with a fresh uuid and zeroed scores. -/
def CreatePersonInput.try_into (ext : ExtLib) (v : CreatePersonInput) :
    Except HttpError Person :=
  match ext.naive_date_from_str v.birth_date with
  | none =>
    Except.error (HttpError.new 400 "InvalidBirthDate"
      "The birth date supplied has an invalid format")
  | some birth_date =>
    Except.ok (Person.new (ext.fresh 0) v.name v.first_name birth_date 0 0)

/-- From of Person for GetPersonOutput, serialized to a JSON value. -/
def GetPersonOutput.toValue (p : Person) : Value :=
  Value.obj
    [("uid", Value.str p.uid.val),
     ("name", Value.str p.name),
     ("firstName", Value.str p.first_name),
     ("birthDate", Value.str p.birth_date.val),
     ("trustScore", Value.num p.trust_score)]

/-- From of PersonRepositoryError for HttpError. -/
def PersonRepositoryError.toHttp : PersonRepositoryError → HttpError
  | PersonRepositoryError.PersonNotFound =>
    HttpError.new 404 "PersonNotFound" "The person requested is not found"
  | PersonRepositoryError.PersonAlreadyExists =>
    HttpError.new 409 "PersonAlreadyExists" "The person you try to create already exists."
  | PersonRepositoryError.InternalError _ => INTERNAL_ERROR

/-- Translation of person_router::router, with the list of domain-manager
invocations made alongside the HTTP outcome.  The Rust match over
(method, path) is compiled to its arm-ordered conditional chain. -/
def person_router (ext : ExtLib) (path : String)
    (query_params : List (String × String)) (method : Method)
    (token : AuthToken) (body : Value) (person_manager : PersonManager) :
    Except HttpError Value × List ManagerCall :=
  if method = Method.POST ∧ path = "" then
    if (token.permissions.contains Permissions.CreatePerson) = false then
      (Except.error ACCESS_DENIED_ERROR, [])
    else
      match ext.parse_create_person body with
      | none =>
        (Except.error (HttpError.new 400 "InvalidFormat"
          "The body format is invalid. Please refer to the documentation"), [])
      | some create_person_input =>
        match create_person_input.try_into ext with
        | Except.error e => (Except.error e, [])
        | Except.ok person =>
          match person_manager.create_person person with
          | Except.error re =>
            (Except.error re.toHttp, [ManagerCall.create_person person])
          | Except.ok _ => (Except.ok Value.null, [ManagerCall.create_person person])
  else if method = Method.GET ∧ path = "" then
    if (token.permissions.contains Permissions.GetPerson) = false then
      (Except.error ACCESS_DENIED_ERROR, [])
    else
      let page_raw := (lookupAssoc query_params "page").getD "0"
      let quantity_raw := (lookupAssoc query_params "quantity").getD "10"
      match parseU16 page_raw with
      | none =>
        (Except.error (HttpError.new 400 "InvalidPageParam"
          "The page parameter provided must be an integer > 0"), [])
      | some page =>
        match parseU16 quantity_raw with
        | none =>
          (Except.error (HttpError.new 400 "InvalidQuantityParam"
            "The quantity parameter provided must be an integer > 0"), [])
        | some quantity =>
          match person_manager.get_people page quantity with
          | Except.error re =>
            (Except.error re.toHttp, [ManagerCall.get_people page quantity])
          | Except.ok people =>
            (Except.ok (Value.arr (people.map GetPersonOutput.toValue)),
             [ManagerCall.get_people page quantity])
  else if method = Method.GET then
    if (token.permissions.contains Permissions.GetPerson) = false then
      (Except.error ACCESS_DENIED_ERROR, [])
    else
      match ext.uuid_from_str path with
      | none =>
        (Except.error (HttpError.new 400 "InvalidUID"
          "The UID you provided seems not to ba a valid UUIDv4"), [])
      | some uid_proposed =>
        match person_manager.get_person_by_id uid_proposed with
        | Except.error re =>
          (Except.error re.toHttp, [ManagerCall.get_person_by_id uid_proposed])
        | Except.ok person_found =>
          (Except.ok (GetPersonOutput.toValue person_found),
           [ManagerCall.get_person_by_id uid_proposed])
  else if method = Method.DELETE then
    if (token.permissions.contains Permissions.DeletePerson) = false then
      (Except.error ACCESS_DENIED_ERROR, [])
    else
      match ext.uuid_from_str path with
      | none =>
        (Except.error (HttpError.new 400 "InvalidUID"
          "The UID you provided seems not to ba a valid UUIDv4"), [])
      | some uid_proposed =>
        match person_manager.delete_person uid_proposed with
        | Except.error re =>
          (Except.error re.toHttp, [ManagerCall.delete_person uid_proposed])
        | Except.ok _ => (Except.ok Value.null, [ManagerCall.delete_person uid_proposed])
  else (Except.error NOT_FOUND_ERROR, [])

/-! ## Speech sub-router (speech/speech_router.rs) -/

/-- From of SpeechRepositoryError for HttpError. -/
def SpeechRepositoryError.toHttp : SpeechRepositoryError → HttpError
  | SpeechRepositoryError.PersonError person_repository_error =>
    person_repository_error.toHttp
  | SpeechRepositoryError.SpeechNotFound =>
    HttpError.new 404 "SpeechNotFound" "The speech requested is not found"
  | SpeechRepositoryError.SpeechAlreadyExists =>
    HttpError.new 409 "SpeechAlreadyExists" "The speech you try to create already exists."
  | SpeechRepositoryError.InternalError _ => INTERNAL_ERROR

/-- TryFrom of CreateSpeechSentenceInput for Sentence; idx indexes the
fresh-uuid call site. -/
def CreateSpeechSentenceInput.try_into (ext : ExtLib) (idx : Nat)
    (v : CreateSpeechSentenceInput) : Except HttpError Sentence :=
  match ext.uuid_from_str v.speaker with
  | none =>
    Except.error (HttpError.new 400 "InvalidUID" "A speaker uid have an invalid format")
  | some speaker_id =>
    Except.ok (Sentence.new (ext.fresh idx) speaker_id v.text v.interrupted)

/-- The sentence-conversion loop of the speech TryFrom. -/
def convert_sentences (ext : ExtLib) (idx : Nat) :
    List CreateSpeechSentenceInput → Except HttpError (List Sentence)
  | [] => Except.ok []
  | s :: rest =>
    match s.try_into ext idx with
    | Except.error e => Except.error e
    | Except.ok sentence =>
      match convert_sentences ext (idx + 1) rest with
      | Except.error e => Except.error e
      | Except.ok sentences => Except.ok (sentence :: sentences)

/-- The speaker-conversion loop of the speech TryFrom. -/
def convert_speakers (ext : ExtLib) :
    List String → Except HttpError (List Uuid)
  | [] => Except.ok []
  | speaker :: rest =>
    match ext.uuid_from_str speaker with
    | none =>
      Except.error (HttpError.new 400 "InvalidSpeakersUid"
        "One of the speaker uid provided have an invalid format")
    | some u =>
      match convert_speakers ext rest with
      | Except.error e => Except.error e
      | Except.ok us => Except.ok (u :: us)

/-- TryFrom of CreateSpeechInput for Speech: sentences first, then the
date, then the speakers, as in the source. -/
def CreateSpeechInput.try_into (ext : ExtLib) (v : CreateSpeechInput) :
    Except HttpError Speech :=
  match convert_sentences ext 1 v.sentences with
  | Except.error e => Except.error e
  | Except.ok sentences =>
    match ext.datetime_from_str v.date with
    | none =>
      Except.error (HttpError.new 400 "InvalidDate"
        "The date provided is invalid. Please be sure to provide an ISO 8601 date.")
    | some date =>
      match convert_speakers ext v.speakers with
      | Except.error e => Except.error e
      | Except.ok speakers =>
        Except.ok (Speech.new (ext.fresh 0) v.name date speakers sentences
          v.media SpeechStatus.Pending)

/-- Serialization of a sentence in the get-by-id output. -/
def GetSpeechSentence.toValue (s : Sentence) : Value :=
  Value.obj
    [("uid", Value.str s.uid.val),
     ("speaker", Value.str s.speaker.val),
     ("text", Value.str s.text),
     ("interrupted", Value.bool s.interrupted)]

/-- Serialization of the get-by-id output. -/
def GetSpeechById.toValue (s : Speech) : Value :=
  Value.obj
    [("uid", Value.str s.uid.val),
     ("name", Value.str s.name),
     ("date", Value.str s.date.val),
     ("media", Value.str s.media),
     ("speakers", Value.arr (s.speakers.map (fun v => Value.str v.val))),
     ("sentences", Value.arr (s.sentences.map GetSpeechSentence.toValue))]

/-- Serialization of the list output. -/
def GetSpeech.toValue (s : Speech) : Value :=
  Value.obj
    [("uid", Value.str s.uid.val),
     ("name", Value.str s.name),
     ("date", Value.str s.date.val),
     ("speakers", Value.arr (s.speakers.map (fun v => Value.str v.val))),
     ("media", Value.str s.media)]

/-- Translation of extract_array_in_query: the value must contain the
URL-encoded bracket `%5B`; the text taken is the piece of the split on
`%5B` after the first, cut at the first `%5D`, then comma-split. -/
def extract_array_in_query (array_field : String)
    (query_params : List (String × String)) : Except HttpError (List String) :=
  match lookupAssoc query_params array_field with
  | none => Except.ok []
  | some array_raw =>
    match (rsSplit array_raw "%5B").drop 1 with
    | [] =>
      Except.error (HttpError.new 400 "InvalidArrayParam"
        "The array query parameter given is an invalid format.")
    | array_decomposed :: _ =>
      match rsSplit array_decomposed "%5D" with
      | [] =>
        Except.error (HttpError.new 400 "InvalidArrayParam"
          "The array query parameter given is an invalid format.")
      | piece :: _ => Except.ok (rsSplit piece ",")

/-- The speaker-uuid parsing loop of the speech list route. -/
def parse_speakers_uid (ext : ExtLib) :
    List String → Except HttpError (List Uuid)
  | [] => Except.ok []
  | speaker_uid :: rest =>
    match ext.uuid_from_str speaker_uid with
    | none =>
      Except.error (HttpError.new 400 "InvalidUid"
        "The uid provided seems invalid, please check it again")
    | some u =>
      match parse_speakers_uid ext rest with
      | Except.error e => Except.error e
      | Except.ok us => Except.ok (u :: us)

/-- Translation of speech_router::router. -/
def speech_router (ext : ExtLib) (path : String)
    (query_params : List (String × String)) (method : Method)
    (token : AuthToken) (body : Value) (speech_manager : SpeechManager) :
    Except HttpError Value × List ManagerCall :=
  if method = Method.POST ∧ path = "" then
    if (token.permissions.contains Permissions.CreateSpeech) = false then
      (Except.error ACCESS_DENIED_ERROR, [])
    else
      match ext.parse_create_speech body with
      | none =>
        (Except.error (HttpError.new 400 "InvalidFormat"
          "The body format is invalid. Please refer to the documentation"), [])
      | some create_speech_input =>
        match create_speech_input.try_into ext with
        | Except.error e => (Except.error e, [])
        | Except.ok speech =>
          match speech_manager.create_speech speech with
          | Except.error re =>
            (Except.error re.toHttp, [ManagerCall.create_speech speech])
          | Except.ok _ => (Except.ok Value.null, [ManagerCall.create_speech speech])
  else if method = Method.GET ∧ path = "" then
    if (token.permissions.contains Permissions.GetSpeech) = false then
      (Except.error ACCESS_DENIED_ERROR, [])
    else
      let page_raw := (lookupAssoc query_params "page").getD "0"
      let quantity_raw := (lookupAssoc query_params "quantity").getD "10"
      match extract_array_in_query "speakers" query_params with
      | Except.error e => (Except.error e, [])
      | Except.ok speakers_raw =>
        match parseU16 page_raw with
        | none =>
          (Except.error (HttpError.new 400 "InvalidPageParam"
            "The page parameter provided must be an integer > 0"), [])
        | some page =>
          match parseU16 quantity_raw with
          | none =>
            (Except.error (HttpError.new 400 "InvalidQuantityParam"
              "The quantity parameter provided must be an integer > 0"), [])
          | some quantity =>
            match parse_speakers_uid ext speakers_raw with
            | Except.error e => (Except.error e, [])
            | Except.ok speakers_uid =>
              match speech_manager.get_speech page quantity speakers_uid with
              | Except.error re =>
                (Except.error re.toHttp,
                 [ManagerCall.get_speech page quantity speakers_uid])
              | Except.ok speech =>
                (Except.ok (Value.arr (speech.map GetSpeech.toValue)),
                 [ManagerCall.get_speech page quantity speakers_uid])
  else if method = Method.GET then
    if (token.permissions.contains Permissions.GetSpeech) = false then
      (Except.error ACCESS_DENIED_ERROR, [])
    else
      match ext.uuid_from_str path with
      | none =>
        (Except.error (HttpError.new 400 "InvalidUid"
          "The uid provided seems invalid, please check it again"), [])
      | some uid =>
        match speech_manager.get_speech_by_id uid with
        | Except.error re =>
          (Except.error re.toHttp, [ManagerCall.get_speech_by_id uid])
        | Except.ok speech_found =>
          (Except.ok (GetSpeechById.toValue speech_found),
           [ManagerCall.get_speech_by_id uid])
  else if method = Method.DELETE then
    if (token.permissions.contains Permissions.DeleteSpeech) = false then
      (Except.error ACCESS_DENIED_ERROR, [])
    else
      match ext.uuid_from_str path with
      | none =>
        (Except.error (HttpError.new 400 "InvalidUid"
          "The uid provided seems invalid, please check it again"), [])
      | some uid =>
        match speech_manager.delete_speech uid with
        | Except.error re =>
          (Except.error re.toHttp, [ManagerCall.delete_speech uid])
        | Except.ok _ => (Except.ok Value.null, [ManagerCall.delete_speech uid])
  else (Except.error NOT_FOUND_ERROR, [])

/-! ## Main dispatcher (router.rs route_requests) -/

/-- The invalid-route error built inline in route_requests. -/
def INVALID_ROUTE_ERROR : HttpError :=
  HttpError.new 400 "InvalidRoute" "The route format seems invalid"

/-- Translation of route_requests (its pure request-handling core, after the
body has been read): check the literal api first segment, parse the query
string, obtain keys from the cache, extract the token, then dispatch the
rejoined remainder of the path to the selected sub-router. -/
def route_requests (ext : ExtLib) (jwt : JwtLib) (kc : KeycloakLib)
    (cache : CachedKeys) (person_manager : PersonManager)
    (speech_manager : SpeechManager) (path params : String) (method : Method)
    (auth_header : String) (body : Value) :
    Except HttpError Value × List ManagerCall × CachedKeys :=
  match (rsSplit path "/").drop 1 with
  | [] => (Except.error NOT_FOUND_ERROR, [], cache)
  | api_str :: rest =>
    if api_str ≠ "api" then (Except.error INVALID_ROUTE_ERROR, [], cache)
    else
      let query_params := get_query_params_from_raw params
      match get_keycloak_keys kc cache with
      | (Except.error _, cache', _) => (Except.error INTERNAL_ERROR, [], cache')
      | (Except.ok keycloak_keys, cache', _) =>
        match extract_token jwt auth_header keycloak_keys with
        | Except.error e => (Except.error e, [], cache')
        | Except.ok token =>
          match rest with
          | [] => (Except.error NOT_FOUND_ERROR, [], cache')
          | val :: tail =>
            let partial_path := rsJoin "/" tail
            match val with
            | "person" =>
              let r := person_router ext partial_path query_params method token
                body person_manager
              (r.1, r.2, cache')
            | "speech" =>
              let r := speech_router ext partial_path query_params method token
                body speech_manager
              (r.1, r.2, cache')
            | _ => (Except.error NOT_FOUND_ERROR, [], cache')

/-! ## Concrete sample environments used to exercise the theorems -/

/-- External environment in which every external parse fails. -/
def extNone : ExtLib :=
  ⟨fun _ => none, fun _ => ⟨"00000000-0000-4000-8000-000000000000"⟩,
   fun _ => none, fun _ => none, fun _ => none, fun _ => none⟩

/-- A person-manager oracle with fixed successful answers. -/
def pmSample : PersonManager :=
  ⟨fun _ => Except.ok (), fun _ _ => Except.ok [],
   fun _ => Except.error PersonRepositoryError.PersonNotFound,
   fun _ => Except.ok ()⟩

/-- A speech-manager oracle with fixed successful answers. -/
def smSample : SpeechManager :=
  ⟨fun _ => Except.ok (), fun _ _ _ => Except.ok [],
   fun _ => Except.error SpeechRepositoryError.SpeechNotFound,
   fun _ => Except.ok ()⟩

/-- A jsonwebtoken environment in which every decode fails. -/
def jwtFail : JwtLib :=
  ⟨fun _ => Except.error "undecodable", fun _ _ _ => Except.error "invalid"⟩

/-- A jsonwebtoken environment in which decoding succeeds with kid k and a
fixed claims payload. -/
def jwtOk : JwtLib :=
  ⟨fun _ => Except.ok ⟨some "k"⟩,
   fun _ _ _ => Except.ok ⟨some "u", none, []⟩⟩

/-- A key set containing the kid the jwtOk environment reports. -/
def keysSample : List (String × DecodingKey) := [("k", ⟨"n", "e"⟩)]

/-- A Keycloak environment whose remote fetch fails. -/
def kcFail : KeycloakLib :=
  ⟨7200, Except.ok "https://idp/certs", fun _ => Except.error "netdown",
   fun _ => Except.error "noparse", fun _ _ => Except.error "nokey"⟩

/-! ## Helper lemmas -/

/-- Every failure of the post-prefix pipeline carries invalid_token. -/
theorem verify_token_part_error (jwt : JwtLib) (token_part : String)
    (keys : List (String × DecodingKey)) (e : HttpError)
    (h : verify_token_part jwt token_part keys = Except.error e) :
    e = invalid_token := by
  unfold verify_token_part at h
  cases h1 : jwt.decode_header token_part with
  | error msg => simp only [h1] at h; simp_all
  | ok header =>
    simp only [h1] at h
    cases h2 : header.kid with
    | none => simp only [h2] at h; simp_all
    | some kid =>
      simp only [h2] at h
      cases h3 : lookupAssoc keys kid with
      | none => simp only [h3] at h; simp_all
      | some decoding_key =>
        simp only [h3] at h
        cases h4 : jwt.decode token_part decoding_key expected_validation with
        | error msg => simp only [h4] at h; simp_all
        | ok decoded => simp only [h4] at h; simp_all

/-- Every failure of extract_token carries the one invalid_token value. -/
theorem extract_token_error_invalid (jwt : JwtLib) (raw_token : String)
    (keys : List (String × DecodingKey)) (e : HttpError)
    (h : extract_token jwt raw_token keys = Except.error e) : e = invalid_token := by
  unfold extract_token at h
  by_cases hemp : raw_token = ""
  · rw [if_pos hemp] at h
    exact absurd h (by simp)
  · rw [if_neg hemp] at h
    cases hsp : (rsSplit raw_token "Bearer ").drop 1 with
    | nil => rw [hsp] at h; simp_all
    | cons token_part rest =>
      rw [hsp] at h
      exact verify_token_part_error jwt token_part keys e h

/-! ## C2: uniform rejection of bad tokens -/

/-- C2: for every non-empty Authorization value on which token extraction
fails — for any cause the jsonwebtoken model can produce (missing prefix,
undecodable header, missing kid, unknown kid, bad signature, wrong
algorithm, expiry, wrong audience, unparseable claims) — the error is the
identical 400 InvalidToken value with the same detail string, never 500. -/
theorem extract_token_failure_uniform (jwt : JwtLib) (raw_token : String)
    (keys : List (String × DecodingKey)) (e : HttpError)
    (_hne : raw_token ≠ "")
    (h : extract_token jwt raw_token keys = Except.error e) :
    e = invalid_token ∧ e.code = 400 ∧ e.error = "InvalidToken" ∧
      e.details = "The token you provided is invalid" ∧ e.code ≠ 500 := by
  have he := extract_token_error_invalid jwt raw_token keys e h
  subst he
  exact ⟨rfl, rfl, rfl, rfl, by decide⟩

/-- Witness for C2 at the concrete header value "x" (no Bearer prefix). -/
theorem extract_token_failure_uniform_witness :
    invalid_token = invalid_token ∧ invalid_token.code = 400 ∧
      invalid_token.error = "InvalidToken" ∧
      invalid_token.details = "The token you provided is invalid" ∧
      invalid_token.code ≠ 500 :=
  extract_token_failure_uniform jwtFail "x" [] invalid_token (by decide) rfl

/-! ## C3: anonymous default principal -/

/-- C3: an empty Authorization value makes extract_token succeed with the
default anonymous principal for every key set; the default carries no user
id, no username, and exactly the permissions GetPerson and GetSpeech.
extract_token takes no path or method input, so the outcome is independent
of both. -/
theorem extract_token_empty_anonymous (jwt : JwtLib)
    (keys : List (String × DecodingKey)) :
    extract_token jwt "" keys = Except.ok AuthToken.default ∧
    AuthToken.default.user_id = none ∧
    AuthToken.default.username = none ∧
    (∀ p : Permissions, p ∈ AuthToken.default.permissions ↔
      (p = Permissions.GetPerson ∨ p = Permissions.GetSpeech)) := by
  refine ⟨by simp [extract_token], rfl, rfl, ?_⟩
  intro p
  cases p <;> simp [AuthToken.default]

/-! ## C4: the Bearer prefix step -/

/-- Counterexample to C4 as stated: the value "xBearer t" does not start
with the literal prefix, yet extraction is not rejected — it succeeds in an
environment whose decodes succeed, because the code splits on the substring
"Bearer " instead of checking a prefix. -/
theorem extract_token_nonbearer_accepted :
    beginsWith "Bearer " "xBearer t" = false ∧
    ("xBearer t" : String) ≠ "" ∧
    extract_token jwtOk "xBearer t" keysSample =
      Except.ok ⟨some "u", none, []⟩ ∧
    (Except.ok ⟨some "u", none, []⟩ : Except HttpError AuthToken) ≠
      Except.error invalid_token := by
  exact ⟨rfl, by decide, rfl, by simp⟩

/-- C4 amended: a non-empty Authorization value proceeds past the prefix
step exactly when it contains "Bearer " as a substring (whether or not at
the start): splitting the value on "Bearer " yields a piece after the
first, the token string is that piece (the text between the first
occurrence and the next one or the end), and values with no occurrence are
rejected with InvalidToken. -/
theorem extract_token_bearer_occurrence (jwt : JwtLib)
    (keys : List (String × DecodingKey)) (raw_token : String)
    (hne : raw_token ≠ "") :
    ((rsSplit raw_token "Bearer ").drop 1 = [] →
      extract_token jwt raw_token keys = Except.error invalid_token) ∧
    (∀ token_part rest, (rsSplit raw_token "Bearer ").drop 1 = token_part :: rest →
      extract_token jwt raw_token keys = verify_token_part jwt token_part keys) := by
  constructor
  · intro h
    unfold extract_token
    rw [if_neg hne, h]
  · intro token_part rest h
    unfold extract_token
    rw [if_neg hne, h]

/-- Witness for C4 amended at "Bearer abc" (token part "abc") and at "x"
(no occurrence, rejected). -/
theorem extract_token_bearer_occurrence_witness :
    extract_token jwtOk "Bearer abc" keysSample =
      verify_token_part jwtOk "abc" keysSample ∧
    extract_token jwtOk "x" keysSample = Except.error invalid_token :=
  ⟨(extract_token_bearer_occurrence jwtOk keysSample "Bearer abc" (by decide)).2
      "abc" [] rfl,
   (extract_token_bearer_occurrence jwtOk keysSample "x" (by decide)).1 rfl⟩

/-! ## C5: fetch failure leaves the cache untouched -/

/-- C5: whenever get_keycloak_keys returns an error — the URL environment
variable missing, the remote fetch failing, the JSON parse failing, or the
building of a verification key failing — the cache entry is returned
exactly as it was, key map and fetched-at timestamp alike, so the next call
retries; a failure never clears the cache or marks it permanently expired. -/
theorem keycloak_failure_keeps_cache (kc : KeycloakLib) (cache : CachedKeys)
    (e : String) (cache' : CachedKeys) (fetched : Bool)
    (h : get_keycloak_keys kc cache = (Except.error e, cache', fetched)) :
    cache' = cache ∧ cache'.keys = cache.keys ∧
      cache'.last_fetched = cache.last_fetched := by
  unfold get_keycloak_keys at h
  repeat' split at h
  all_goals simp_all

/-- Witness for C5: an expired cache and a failing remote fetch. -/
theorem keycloak_failure_keeps_cache_witness :
    (⟨[], 0⟩ : CachedKeys) = ⟨[], 0⟩ ∧
    CachedKeys.keys ⟨[], 0⟩ = CachedKeys.keys ⟨[], 0⟩ ∧
    CachedKeys.last_fetched ⟨[], 0⟩ = CachedKeys.last_fetched ⟨[], 0⟩ :=
  keycloak_failure_keeps_cache kcFail ⟨[], 0⟩ "netdown" ⟨[], 0⟩ true rfl

/-! ## C6: cache hits below the TTL -/

/-- C6: while the cached entry's age is below the 1-hour TTL,
get_keycloak_keys returns exactly the stored key set, contacts no remote
endpoint, and leaves the cache entry (keys and timestamp) unmodified. -/
theorem keycloak_fresh_cache_hit (kc : KeycloakLib) (cache : CachedKeys)
    (h : kc.now - cache.last_fetched < 3600) :
    get_keycloak_keys kc cache = (Except.ok cache.keys, cache, false) := by
  unfold get_keycloak_keys
  rw [if_pos h]

/-- Witness for C6 at a cache fetched 200 seconds ago. -/
theorem keycloak_fresh_cache_hit_witness :
    get_keycloak_keys kcFail ⟨keysSample, 7000⟩ =
      (Except.ok keysSample, ⟨keysSample, 7000⟩, false) :=
  keycloak_fresh_cache_hit kcFail ⟨keysSample, 7000⟩ (by decide)

/-! ## C1: every operation checks its permission first -/

/-- C1: for each of the eight sub-router operations (person and speech:
POST create, GET list, GET by id, DELETE), a token whose permission list
lacks the operation's required permission makes the router return the fixed
403 AccessDenied error with an empty list of domain-manager invocations, in
every environment and for every body, query map and sub-path. -/
theorem routers_permission_gate (ext : ExtLib) (pm : PersonManager)
    (sm : SpeechManager) (qp : List (String × String)) (token : AuthToken)
    (body : Value) (path : String) :
    ((token.permissions.contains Permissions.CreatePerson) = false →
      person_router ext "" qp Method.POST token body pm =
        (Except.error ACCESS_DENIED_ERROR, [])) ∧
    ((token.permissions.contains Permissions.GetPerson) = false →
      person_router ext "" qp Method.GET token body pm =
        (Except.error ACCESS_DENIED_ERROR, [])) ∧
    ((token.permissions.contains Permissions.GetPerson) = false →
      person_router ext path qp Method.GET token body pm =
        (Except.error ACCESS_DENIED_ERROR, [])) ∧
    ((token.permissions.contains Permissions.DeletePerson) = false →
      person_router ext path qp Method.DELETE token body pm =
        (Except.error ACCESS_DENIED_ERROR, [])) ∧
    ((token.permissions.contains Permissions.CreateSpeech) = false →
      speech_router ext "" qp Method.POST token body sm =
        (Except.error ACCESS_DENIED_ERROR, [])) ∧
    ((token.permissions.contains Permissions.GetSpeech) = false →
      speech_router ext "" qp Method.GET token body sm =
        (Except.error ACCESS_DENIED_ERROR, [])) ∧
    ((token.permissions.contains Permissions.GetSpeech) = false →
      speech_router ext path qp Method.GET token body sm =
        (Except.error ACCESS_DENIED_ERROR, [])) ∧
    ((token.permissions.contains Permissions.DeleteSpeech) = false →
      speech_router ext path qp Method.DELETE token body sm =
        (Except.error ACCESS_DENIED_ERROR, [])) := by
  refine ⟨?_, ?_, ?_, ?_, ?_, ?_, ?_, ?_⟩ <;> intro h
  · have h' : Permissions.CreatePerson ∉ token.permissions := by simpa using h
    simp [person_router, h']
  · have h' : Permissions.GetPerson ∉ token.permissions := by simpa using h
    simp [person_router, h']
  · have h' : Permissions.GetPerson ∉ token.permissions := by simpa using h
    by_cases hp : path = "" <;> simp [person_router, h', hp]
  · have h' : Permissions.DeletePerson ∉ token.permissions := by simpa using h
    by_cases hp : path = "" <;> simp [person_router, h', hp]
  · have h' : Permissions.CreateSpeech ∉ token.permissions := by simpa using h
    simp [speech_router, h']
  · have h' : Permissions.GetSpeech ∉ token.permissions := by simpa using h
    simp [speech_router, h']
  · have h' : Permissions.GetSpeech ∉ token.permissions := by simpa using h
    by_cases hp : path = "" <;> simp [speech_router, h', hp]
  · have h' : Permissions.DeleteSpeech ∉ token.permissions := by simpa using h
    by_cases hp : path = "" <;> simp [speech_router, h', hp]

/-- Witness for C1: the anonymous token lacks CreatePerson, so the person
create route returns 403 and performs no manager call. -/
theorem routers_permission_gate_witness :
    person_router extNone "" [] Method.POST AuthToken.default Value.null pmSample =
      (Except.error ACCESS_DENIED_ERROR, []) :=
  (routers_permission_gate extNone pmSample smSample [] AuthToken.default
      Value.null "x").1 (by decide)

/-! ## C9: permission check precedes sub-path validation -/

/-- C9: on GET and DELETE with a non-empty sub-path, the permission check
comes first: a token lacking the required permission receives the fixed 403
even when the sub-path fails uuid parsing, and conversely the 400
InvalidUID/InvalidUid error can only be produced for a token that holds the
branch's required permission. -/
theorem permission_checked_before_uid (ext : ExtLib) (pm : PersonManager)
    (sm : SpeechManager) (qp : List (String × String)) (token : AuthToken)
    (body : Value) (path : String) (hpath : path ≠ "") :
    (ext.uuid_from_str path = none →
      (token.permissions.contains Permissions.GetPerson) = false →
      person_router ext path qp Method.GET token body pm =
        (Except.error ACCESS_DENIED_ERROR, [])) ∧
    (ext.uuid_from_str path = none →
      (token.permissions.contains Permissions.DeletePerson) = false →
      person_router ext path qp Method.DELETE token body pm =
        (Except.error ACCESS_DENIED_ERROR, [])) ∧
    (ext.uuid_from_str path = none →
      (token.permissions.contains Permissions.GetSpeech) = false →
      speech_router ext path qp Method.GET token body sm =
        (Except.error ACCESS_DENIED_ERROR, [])) ∧
    (ext.uuid_from_str path = none →
      (token.permissions.contains Permissions.DeleteSpeech) = false →
      speech_router ext path qp Method.DELETE token body sm =
        (Except.error ACCESS_DENIED_ERROR, [])) ∧
    ((person_router ext path qp Method.GET token body pm).1 =
        Except.error (HttpError.new 400 "InvalidUID"
          "The UID you provided seems not to ba a valid UUIDv4") →
      (token.permissions.contains Permissions.GetPerson) = true) ∧
    ((person_router ext path qp Method.DELETE token body pm).1 =
        Except.error (HttpError.new 400 "InvalidUID"
          "The UID you provided seems not to ba a valid UUIDv4") →
      (token.permissions.contains Permissions.DeletePerson) = true) ∧
    ((speech_router ext path qp Method.GET token body sm).1 =
        Except.error (HttpError.new 400 "InvalidUid"
          "The uid provided seems invalid, please check it again") →
      (token.permissions.contains Permissions.GetSpeech) = true) ∧
    ((speech_router ext path qp Method.DELETE token body sm).1 =
        Except.error (HttpError.new 400 "InvalidUid"
          "The uid provided seems invalid, please check it again") →
      (token.permissions.contains Permissions.DeleteSpeech) = true) := by
  refine ⟨?_, ?_, ?_, ?_, ?_, ?_, ?_, ?_⟩
  · intro _ h
    have h' : Permissions.GetPerson ∉ token.permissions := by simpa using h
    simp [person_router, h', hpath]
  · intro _ h
    have h' : Permissions.DeletePerson ∉ token.permissions := by simpa using h
    simp [person_router, h', hpath]
  · intro _ h
    have h' : Permissions.GetSpeech ∉ token.permissions := by simpa using h
    simp [speech_router, h', hpath]
  · intro _ h
    have h' : Permissions.DeleteSpeech ∉ token.permissions := by simpa using h
    simp [speech_router, h', hpath]
  · intro h
    by_cases hc : (token.permissions.contains Permissions.GetPerson) = true
    · exact hc
    · rw [Bool.not_eq_true] at hc
      have hc' : Permissions.GetPerson ∉ token.permissions := by simpa using hc
      simp [person_router, hc', hpath, ACCESS_DENIED_ERROR, HttpError.new] at h
  · intro h
    by_cases hc : (token.permissions.contains Permissions.DeletePerson) = true
    · exact hc
    · rw [Bool.not_eq_true] at hc
      have hc' : Permissions.DeletePerson ∉ token.permissions := by simpa using hc
      simp [person_router, hc', hpath, ACCESS_DENIED_ERROR, HttpError.new] at h
  · intro h
    by_cases hc : (token.permissions.contains Permissions.GetSpeech) = true
    · exact hc
    · rw [Bool.not_eq_true] at hc
      have hc' : Permissions.GetSpeech ∉ token.permissions := by simpa using hc
      simp [speech_router, hc', hpath, ACCESS_DENIED_ERROR, HttpError.new] at h
  · intro h
    by_cases hc : (token.permissions.contains Permissions.DeleteSpeech) = true
    · exact hc
    · rw [Bool.not_eq_true] at hc
      have hc' : Permissions.DeleteSpeech ∉ token.permissions := by simpa using hc
      simp [speech_router, hc', hpath, ACCESS_DENIED_ERROR, HttpError.new] at h

/-- Witness for C9: sub-path "zzz" is not a uuid in the extNone
environment, the anonymous token lacks DeletePerson, and the delete route
answers 403 with no manager call. -/
theorem permission_checked_before_uid_witness :
    person_router extNone "zzz" [] Method.DELETE AuthToken.default Value.null
      pmSample = (Except.error ACCESS_DENIED_ERROR, []) :=
  (permission_checked_before_uid extNone pmSample smSample [] AuthToken.default
      Value.null "zzz" (by decide)).2.1 rfl (by decide)

/-! ## C8: query-string parsing -/

/-- The key/value pair a query segment contributes: the pieces before the
first and between the first and second equals sign, or nothing when the
segment has no equals sign. -/
def segPair (seg : String) : Option (String × String) :=
  match rsSplit seg "=" with
  | var :: val :: _ => some (var, val)
  | _ => none

theorem lookup_insertAssoc {α : Type} (m : List (String × α)) (ki k : String)
    (v : α) :
    lookupAssoc (insertAssoc m ki v) k =
      if ki = k then some v else lookupAssoc m k := by
  induction m with
  | nil => by_cases h : ki = k <;> simp [insertAssoc, lookupAssoc, h]
  | cons p rest ih =>
    obtain ⟨a, b⟩ := p
    by_cases hai : a = ki
    · subst hai
      by_cases h : a = k <;> simp [insertAssoc, lookupAssoc, h]
    · by_cases h : a = k
      · subst h
        have : ¬ ki = a := fun hk => hai hk.symm
        simp [insertAssoc, lookupAssoc, hai, this]
      · simp [insertAssoc, lookupAssoc, hai, h, ih]

theorem query_foldl_filterMap (l : List String) (m : List (String × String)) :
    l.foldl
      (fun m query_param =>
        match rsSplit query_param "=" with
        | var :: val :: _ => insertAssoc m var val
        | _ => m) m
    = (l.filterMap segPair).foldl (fun m p => insertAssoc m p.1 p.2) m := by
  induction l generalizing m with
  | nil => simp
  | cons seg rest ih =>
    cases hs : rsSplit seg "=" with
    | nil => simp [segPair, hs, ih]
    | cons a tl =>
      cases tl with
      | nil => simp [segPair, hs, ih]
      | cons b tl2 => simp [segPair, hs, ih]

theorem lookup_foldl_insert (ps : List (String × String))
    (m : List (String × String)) (k : String) :
    lookupAssoc (ps.foldl (fun m p => insertAssoc m p.1 p.2) m) k =
      (match ps.reverse.find? (fun p => p.1 == k) with
       | some q => some q.2
       | none => lookupAssoc m k) := by
  induction ps generalizing m with
  | nil => simp
  | cons p rest ih =>
    obtain ⟨a, b⟩ := p
    simp only [List.foldl_cons, List.reverse_cons]
    rw [ih]
    rw [List.find?_append]
    cases hf : rest.reverse.find? (fun p => p.1 == k) with
    | some q => simp
    | none =>
      by_cases hak : a = k
      · subst hak
        simp [lookup_insertAssoc, List.find?]
      · have : (a == k) = false := by simpa using hak
        simp [lookup_insertAssoc, List.find?, this, hak]

/-- C8 amended: the parser splits the raw query on `&` and each segment on
`=`; a segment with fewer than two pieces (no `=`) is dropped, the key is
the piece before the first `=`, the value is the piece between the first
and second `=` (anything after a second `=` is discarded), and on duplicate
keys the last segment's value wins. -/
theorem query_params_characterization (raw_params : String) (k : String) :
    lookupAssoc (get_query_params_from_raw raw_params) k =
      (((rsSplit raw_params "&").filterMap segPair).reverse.find?
        (fun p => p.1 == k)).map Prod.snd := by
  unfold get_query_params_from_raw
  rw [query_foldl_filterMap, lookup_foldl_insert]
  cases hf : ((rsSplit raw_params "&").filterMap segPair).reverse.find?
      (fun p => p.1 == k) with
  | some q => simp
  | none => simp [lookupAssoc]

/-- Counterexample to C8 as stated: in "a=b=c" the value stored for "a" is
"b", the piece between the first and second equals sign, not "b=c", the
whole remainder after the first equals sign. -/
theorem query_value_truncated_counterexample :
    get_query_params_from_raw "a=b=c" = [("a", "b")] ∧
    lookupAssoc (get_query_params_from_raw "a=b=c") "a" = some "b" ∧
    lookupAssoc (get_query_params_from_raw "a=b=c") "a" ≠ some "b=c" :=
  ⟨rfl, rfl, by decide⟩

/-! ## C10: the speakers array query parameter -/

theorem splitLoop_ne_nil (sep : List Char) :
    ∀ (fuel : Nat) (cs acc : List Char), splitLoop sep fuel cs acc ≠ [] := by
  intro fuel
  induction fuel with
  | zero => intro cs acc; simp [splitLoop]
  | succ n ih =>
    intro cs acc
    cases cs with
    | nil => simp [splitLoop]
    | cons c rest =>
      unfold splitLoop
      cases h : dropSep sep (c :: rest) with
      | some rest' => simp
      | none => simpa using ih rest (c :: acc)

theorem rsSplit_ne_nil (s sep : String) : rsSplit s sep ≠ [] := by
  unfold rsSplit
  intro h
  exact splitLoop_ne_nil sep.data (s.data.length + 1) s.data []
    (List.map_eq_nil_iff.mp h)

/-- Modelled from the spec claim (for comparison only): the comma-split of
the text between the first `%5B` and the following `%5D`, or to the end of
the string when `%5D` is absent. -/
def claim_array_parse (v : String) : List String :=
  rsSplit ((rsSplit (rsJoin "%5B" ((rsSplit v "%5B").drop 1)) "%5D").headD "") ","

/-- Counterexample to C10 as stated: for the value "%5Ba%5Bb%5Dc" the code
splits on `%5B` first, so the candidate text is cut at the second `%5B`
before `%5D` is ever considered and the parsed list is ["a"], while the
claim's reading — everything between the first `%5B` and the following
`%5D` — would give ["a%5Bb"]. -/
theorem extract_array_nested_bracket_counterexample :
    extract_array_in_query "speakers" [("speakers", "%5Ba%5Bb%5Dc")] =
      Except.ok ["a"] ∧
    claim_array_parse "%5Ba%5Bb%5Dc" = ["a%5Bb"] ∧
    (["a"] : List String) ≠ ["a%5Bb"] :=
  ⟨rfl, rfl, by decide⟩

/-- C10 amended: when the speech list route's query map has no "speakers"
key the filter is empty; when the value contains no `%5B` the operation
(and extract_array_in_query itself) fails with the fixed 400
InvalidArrayParam error; otherwise the parsed list is the comma-split of
the piece of the value between the first `%5B` and the earliest following
`%5B` or `%5D` (or the end of the string): the split on `%5B` is taken
first and only then cut at the first `%5D`. -/
theorem extract_array_characterization (ext : ExtLib) (sm : SpeechManager)
    (qp : List (String × String)) (token : AuthToken) (body : Value) :
    (lookupAssoc qp "speakers" = none →
      extract_array_in_query "speakers" qp = Except.ok []) ∧
    (∀ v, lookupAssoc qp "speakers" = some v →
      (rsSplit v "%5B").drop 1 = [] →
      extract_array_in_query "speakers" qp =
        Except.error (HttpError.new 400 "InvalidArrayParam"
          "The array query parameter given is an invalid format.")) ∧
    (∀ v t rest, lookupAssoc qp "speakers" = some v →
      (rsSplit v "%5B").drop 1 = t :: rest →
      extract_array_in_query "speakers" qp =
        Except.ok (rsSplit ((rsSplit t "%5D").headD "") ",")) ∧
    ((token.permissions.contains Permissions.GetSpeech) = true →
      ∀ v, lookupAssoc qp "speakers" = some v →
      (rsSplit v "%5B").drop 1 = [] →
      (speech_router ext "" qp Method.GET token body sm).1 =
        Except.error (HttpError.new 400 "InvalidArrayParam"
          "The array query parameter given is an invalid format.")) := by
  refine ⟨?_, ?_, ?_, ?_⟩
  · intro h
    unfold extract_array_in_query
    rw [h]
  · intro v hv hsp
    unfold extract_array_in_query
    rw [hv]
    simp only [hsp]
  · intro v t rest hv hsp
    unfold extract_array_in_query
    rw [hv]
    simp only [hsp]
    cases hd : rsSplit t "%5D" with
    | nil => exact absurd hd (rsSplit_ne_nil t "%5D")
    | cons piece more => simp [hd]
  · intro hperm v hv hsp
    have hperm' : Permissions.GetSpeech ∈ token.permissions := by
      simpa using hperm
    have harr : extract_array_in_query "speakers" qp =
        Except.error (HttpError.new 400 "InvalidArrayParam"
          "The array query parameter given is an invalid format.") := by
      unfold extract_array_in_query
      rw [hv]
      simp only [hsp]
    simp [speech_router, hperm', harr]

/-- Witness for C10 amended at the well-formed value "%5B1,2%5D". -/
theorem extract_array_characterization_witness :
    extract_array_in_query "speakers" [("speakers", "%5B1,2%5D")] =
      Except.ok ["1", "2"] := by
  have h := (extract_array_characterization extNone smSample
      [("speakers", "%5B1,2%5D")] AuthToken.default Value.null).2.2.1
      "%5B1,2%5D" "1,2%5D" [] rfl rfl
  exact h

/-! ## C7: path dispatch -/

theorem try_into_person_error (ext : ExtLib) (v : CreatePersonInput)
    (e : HttpError) (h : v.try_into ext = Except.error e) :
    e = HttpError.new 400 "InvalidBirthDate"
      "The birth date supplied has an invalid format" := by
  unfold CreatePersonInput.try_into at h
  cases hd : ext.naive_date_from_str v.birth_date with
  | none => simp only [hd] at h; simp_all
  | some d => simp only [hd] at h; simp_all

theorem personErr_toHttp_ne_route (re : PersonRepositoryError) :
    re.toHttp ≠ INVALID_ROUTE_ERROR := by
  cases re <;>
    simp [PersonRepositoryError.toHttp, INTERNAL_ERROR, INVALID_ROUTE_ERROR,
      HttpError.new]

theorem speechErr_toHttp_ne_route (re : SpeechRepositoryError) :
    re.toHttp ≠ INVALID_ROUTE_ERROR := by
  cases re with
  | PersonError pe => exact personErr_toHttp_ne_route pe
  | SpeechNotFound => decide
  | SpeechAlreadyExists => decide
  | InternalError msg =>
    simp [SpeechRepositoryError.toHttp, INTERNAL_ERROR, INVALID_ROUTE_ERROR,
      HttpError.new]

theorem sentence_try_into_error (ext : ExtLib) (idx : Nat)
    (v : CreateSpeechSentenceInput) (e : HttpError)
    (h : v.try_into ext idx = Except.error e) :
    e = HttpError.new 400 "InvalidUID" "A speaker uid have an invalid format" := by
  unfold CreateSpeechSentenceInput.try_into at h
  cases hd : ext.uuid_from_str v.speaker with
  | none => simp only [hd] at h; simp_all
  | some u => simp only [hd] at h; simp_all

theorem convert_sentences_error (ext : ExtLib) :
    ∀ (l : List CreateSpeechSentenceInput) (idx : Nat) (e : HttpError),
      convert_sentences ext idx l = Except.error e →
      e = HttpError.new 400 "InvalidUID" "A speaker uid have an invalid format" := by
  intro l
  induction l with
  | nil => intro idx e h; simp [convert_sentences] at h
  | cons s rest ih =>
    intro idx e h
    unfold convert_sentences at h
    cases hs : s.try_into ext idx with
    | error e1 =>
      simp only [hs] at h
      cases h
      exact sentence_try_into_error ext idx s e hs
    | ok sentence =>
      simp only [hs] at h
      cases hr : convert_sentences ext (idx + 1) rest with
      | error e2 =>
        simp only [hr] at h
        cases h
        exact ih (idx + 1) e hr
      | ok sentences => simp only [hr] at h; cases h

theorem convert_speakers_error (ext : ExtLib) :
    ∀ (l : List String) (e : HttpError),
      convert_speakers ext l = Except.error e →
      e = HttpError.new 400 "InvalidSpeakersUid"
        "One of the speaker uid provided have an invalid format" := by
  intro l
  induction l with
  | nil => intro e h; simp [convert_speakers] at h
  | cons s rest ih =>
    intro e h
    unfold convert_speakers at h
    cases hs : ext.uuid_from_str s with
    | none => simp only [hs] at h; cases h; rfl
    | some u =>
      simp only [hs] at h
      cases hr : convert_speakers ext rest with
      | error e2 => simp only [hr] at h; cases h; exact ih e hr
      | ok us => simp only [hr] at h; cases h

theorem try_into_speech_ne_route (ext : ExtLib) (v : CreateSpeechInput)
    (e : HttpError) (h : v.try_into ext = Except.error e) :
    e ≠ INVALID_ROUTE_ERROR := by
  unfold CreateSpeechInput.try_into at h
  cases hs : convert_sentences ext 1 v.sentences with
  | error e1 =>
    simp only [hs] at h
    cases h
    rw [convert_sentences_error ext v.sentences 1 e hs]
    decide
  | ok sentences =>
    simp only [hs] at h
    cases hd : ext.datetime_from_str v.date with
    | none =>
      simp only [hd] at h
      cases h
      decide
    | some date =>
      simp only [hd] at h
      cases hk : convert_speakers ext v.speakers with
      | error e2 =>
        simp only [hk] at h
        cases h
        rw [convert_speakers_error ext v.speakers e hk]
        decide
      | ok speakers => simp only [hk] at h; cases h

theorem parse_speakers_uid_error (ext : ExtLib) :
    ∀ (l : List String) (e : HttpError),
      parse_speakers_uid ext l = Except.error e →
      e = HttpError.new 400 "InvalidUid"
        "The uid provided seems invalid, please check it again" := by
  intro l
  induction l with
  | nil => intro e h; simp [parse_speakers_uid] at h
  | cons s rest ih =>
    intro e h
    unfold parse_speakers_uid at h
    cases hs : ext.uuid_from_str s with
    | none => simp only [hs] at h; cases h; rfl
    | some u =>
      simp only [hs] at h
      cases hr : parse_speakers_uid ext rest with
      | error e2 => simp only [hr] at h; cases h; exact ih e hr
      | ok us => simp only [hr] at h; cases h

theorem extract_array_error (array_field : String)
    (qp : List (String × String)) (e : HttpError)
    (h : extract_array_in_query array_field qp = Except.error e) :
    e = HttpError.new 400 "InvalidArrayParam"
      "The array query parameter given is an invalid format." := by
  unfold extract_array_in_query at h
  repeat' split at h
  all_goals simp_all

theorem person_router_error_ne_route (ext : ExtLib) (path : String)
    (qp : List (String × String)) (method : Method) (token : AuthToken)
    (body : Value) (pm : PersonManager) (e : HttpError)
    (calls : List ManagerCall)
    (h : person_router ext path qp method token body pm =
      (Except.error e, calls)) :
    e ≠ INVALID_ROUTE_ERROR := by
  unfold person_router at h
  dsimp only at h
  repeat' split at h
  all_goals rw [Prod.mk.injEq] at h
  all_goals obtain ⟨h1, h2⟩ := h
  all_goals first
    | exact Except.noConfusion h1
    | (injection h1 with h1
       rw [← h1]
       first
         | decide
         | exact personErr_toHttp_ne_route _
         | (rename_i heq
            rw [try_into_person_error ext _ _ heq]
            decide))

theorem speech_router_error_ne_route (ext : ExtLib) (path : String)
    (qp : List (String × String)) (method : Method) (token : AuthToken)
    (body : Value) (sm : SpeechManager) (e : HttpError)
    (calls : List ManagerCall)
    (h : speech_router ext path qp method token body sm =
      (Except.error e, calls)) :
    e ≠ INVALID_ROUTE_ERROR := by
  unfold speech_router at h
  dsimp only at h
  repeat' split at h
  all_goals rw [Prod.mk.injEq] at h
  all_goals obtain ⟨h1, h2⟩ := h
  all_goals first
    | exact Except.noConfusion h1
    | (injection h1 with h1
       rw [← h1]
       first
         | decide
         | exact speechErr_toHttp_ne_route _
         | (rename_i heq
            first
              | (rw [parse_speakers_uid_error ext _ _ heq]
                 decide)
              | (rw [extract_array_error _ _ _ heq]
                 decide)
              | exact fun hx => try_into_speech_ne_route ext _ _ heq hx))

/-- A Keycloak environment whose cache reads are fresh at instant 100. -/
def kcFresh : KeycloakLib :=
  ⟨100, Except.ok "https://idp/certs", fun _ => Except.error "e",
   fun _ => Except.error "e", fun _ _ => Except.error "e"⟩

/-- The tail of route_requests after authentication, as a named function:
the second-segment dispatch of the verified request. -/
def after_auth (ext : ExtLib) (params : String) (method : Method)
    (body : Value) (pm : PersonManager) (sm : SpeechManager)
    (token : AuthToken) (cache' : CachedKeys) :
    List String → Except HttpError Value × List ManagerCall × CachedKeys
  | [] => (Except.error NOT_FOUND_ERROR, [], cache')
  | val :: tail =>
    match val with
    | "person" =>
      ((person_router ext (rsJoin "/" tail) (get_query_params_from_raw params)
          method token body pm).1,
       (person_router ext (rsJoin "/" tail) (get_query_params_from_raw params)
          method token body pm).2, cache')
    | "speech" =>
      ((speech_router ext (rsJoin "/" tail) (get_query_params_from_raw params)
          method token body sm).1,
       (speech_router ext (rsJoin "/" tail) (get_query_params_from_raw params)
          method token body sm).2, cache')
    | _ => (Except.error NOT_FOUND_ERROR, [], cache')

theorem after_auth_other (ext : ExtLib) (params : String) (method : Method)
    (body : Value) (pm : PersonManager) (sm : SpeechManager)
    (token : AuthToken) (cache' : CachedKeys) (v : String)
    (tail : List String) (hv : v ≠ "person") (hw : v ≠ "speech") :
    after_auth ext params method body pm sm token cache' (v :: tail) =
      (Except.error NOT_FOUND_ERROR, [], cache') := by
  unfold after_auth
  split <;> simp_all

/-- Reduction of route_requests once the first segment is the literal api. -/
theorem route_requests_unfold_api (ext : ExtLib) (jwt : JwtLib)
    (kc : KeycloakLib) (cache : CachedKeys) (pm : PersonManager)
    (sm : SpeechManager) (path params : String) (method : Method)
    (auth_header : String) (body : Value) (rest : List String)
    (hsp : (rsSplit path "/").drop 1 = "api" :: rest) :
    route_requests ext jwt kc cache pm sm path params method auth_header
      body =
      (match get_keycloak_keys kc cache with
       | (Except.error _, cache', _) => (Except.error INTERNAL_ERROR, [], cache')
       | (Except.ok keys, cache', _) =>
         match extract_token jwt auth_header keys with
         | Except.error e => (Except.error e, [], cache')
         | Except.ok token =>
           after_auth ext params method body pm sm token cache' rest) := by
  unfold route_requests
  simp only [hsp]
  rw [if_neg (show ¬(("api" : String) ≠ "api") by simp)]
  rfl

/-- C7: the dispatcher fails with the fixed 400 InvalidRoute error exactly
when the first path segment (the piece after the leading slash) exists and
differs from the literal api; under an api first segment, once the key
cache and the token extraction succeed, the second segment selects the
sub-router by exact match on person or speech, a missing or unmatched
second segment yields the fixed 404 NotFound error, and the remaining
segments rejoined with "/" are the local path handed to the sub-router
along with the parsed query map. -/
theorem route_requests_dispatch_spec (ext : ExtLib) (jwt : JwtLib)
    (kc : KeycloakLib) (cache : CachedKeys) (pm : PersonManager)
    (sm : SpeechManager) (path params : String) (method : Method)
    (auth_header : String) (body : Value) :
    ((route_requests ext jwt kc cache pm sm path params method auth_header
        body).1 = Except.error INVALID_ROUTE_ERROR ↔
      ∃ s rest, (rsSplit path "/").drop 1 = s :: rest ∧ s ≠ "api") ∧
    (∀ rest, (rsSplit path "/").drop 1 = "api" :: rest →
      ∀ keys cache' fetched,
        get_keycloak_keys kc cache = (Except.ok keys, cache', fetched) →
      ∀ token, extract_token jwt auth_header keys = Except.ok token →
      (rest = [] →
        route_requests ext jwt kc cache pm sm path params method auth_header
          body = (Except.error NOT_FOUND_ERROR, [], cache')) ∧
      (∀ tail, rest = "person" :: tail →
        route_requests ext jwt kc cache pm sm path params method auth_header
          body =
        ((person_router ext (rsJoin "/" tail) (get_query_params_from_raw params)
            method token body pm).1,
         (person_router ext (rsJoin "/" tail) (get_query_params_from_raw params)
            method token body pm).2, cache')) ∧
      (∀ tail, rest = "speech" :: tail →
        route_requests ext jwt kc cache pm sm path params method auth_header
          body =
        ((speech_router ext (rsJoin "/" tail) (get_query_params_from_raw params)
            method token body sm).1,
         (speech_router ext (rsJoin "/" tail) (get_query_params_from_raw params)
            method token body sm).2, cache')) ∧
      (∀ v tail, rest = v :: tail → v ≠ "person" → v ≠ "speech" →
        route_requests ext jwt kc cache pm sm path params method auth_header
          body = (Except.error NOT_FOUND_ERROR, [], cache'))) := by
  constructor
  · constructor
    · intro h
      cases hsp : (rsSplit path "/").drop 1 with
      | nil =>
        unfold route_requests at h
        simp only [hsp] at h
        simp [NOT_FOUND_ERROR, INVALID_ROUTE_ERROR, HttpError.new] at h
      | cons s rest =>
        by_cases hs : s = "api"
        · exfalso
          subst hs
          rw [route_requests_unfold_api ext jwt kc cache pm sm path params
              method auth_header body rest hsp] at h
          rcases hk : get_keycloak_keys kc cache with ⟨r, cache', fetched⟩
          rw [hk] at h
          cases r with
          | error e =>
            simp [INTERNAL_ERROR, INVALID_ROUTE_ERROR, HttpError.new] at h
          | ok keys =>
            cases ht : extract_token jwt auth_header keys with
            | error e =>
              simp only [ht] at h
              have := extract_token_error_invalid jwt auth_header keys e ht
              subst this
              simp [invalid_token, INVALID_ROUTE_ERROR, HttpError.new] at h
            | ok token =>
              simp only [ht] at h
              cases rest with
              | nil =>
                simp [after_auth, NOT_FOUND_ERROR, INVALID_ROUTE_ERROR,
                  HttpError.new] at h
              | cons v tail =>
                by_cases hv : v = "person"
                · subst hv
                  have h2 : (person_router ext (rsJoin "/" tail)
                      (get_query_params_from_raw params) method token body
                      pm).1 = Except.error INVALID_ROUTE_ERROR := h
                  rcases hpr : person_router ext (rsJoin "/" tail)
                      (get_query_params_from_raw params) method token body pm
                    with ⟨r2, calls⟩
                  rw [hpr] at h2
                  rw [show ((r2, calls).1 = Except.error INVALID_ROUTE_ERROR)
                      = (r2 = Except.error INVALID_ROUTE_ERROR) from rfl] at h2
                  rw [h2] at hpr
                  exact person_router_error_ne_route ext _ _ method token body
                    pm _ calls hpr rfl
                · by_cases hw : v = "speech"
                  · subst hw
                    have h2 : (speech_router ext (rsJoin "/" tail)
                        (get_query_params_from_raw params) method token body
                        sm).1 = Except.error INVALID_ROUTE_ERROR := h
                    rcases hpr : speech_router ext (rsJoin "/" tail)
                        (get_query_params_from_raw params) method token body sm
                      with ⟨r2, calls⟩
                    rw [hpr] at h2
                    rw [show ((r2, calls).1 = Except.error INVALID_ROUTE_ERROR)
                        = (r2 = Except.error INVALID_ROUTE_ERROR) from rfl] at h2
                    rw [h2] at hpr
                    exact speech_router_error_ne_route ext _ _ method token
                      body sm _ calls hpr rfl
                  · rw [after_auth_other ext params method body pm sm token
                      cache' v tail hv hw] at h
                    simp [NOT_FOUND_ERROR, INVALID_ROUTE_ERROR,
                      HttpError.new] at h
        · exact ⟨s, rest, rfl, hs⟩
    · intro ⟨s, rest, hsp, hs⟩
      unfold route_requests
      simp only [hsp]
      rw [if_pos hs]
  · intro rest hsp keys cache' fetched hk token ht
    have hred := route_requests_unfold_api ext jwt kc cache pm sm path params
      method auth_header body rest hsp
    rw [hk] at hred
    simp only [ht] at hred
    refine ⟨?_, ?_, ?_, ?_⟩
    · intro hrest
      subst hrest
      rw [hred]
      rfl
    · intro tail hrest
      subst hrest
      rw [hred]
      rfl
    · intro tail hrest
      subst hrest
      rw [hred]
      rfl
    · intro v tail hrest hv hw
      subst hrest
      rw [hred]
      exact after_auth_other ext params method body pm sm token cache' v tail
        hv hw

/-- Witness for C7: the path /api/person/abc with a fresh key cache and an
empty Authorization header dispatches to the person router with local path
"abc". -/
theorem route_requests_dispatch_spec_witness :
    route_requests extNone jwtFail kcFresh ⟨[], 0⟩ pmSample smSample
      "/api/person/abc" "" Method.GET "" Value.null =
    ((person_router extNone "abc" (get_query_params_from_raw "") Method.GET
        AuthToken.default Value.null pmSample).1,
     (person_router extNone "abc" (get_query_params_from_raw "") Method.GET
        AuthToken.default Value.null pmSample).2, ⟨[], 0⟩) :=
  ((route_requests_dispatch_spec extNone jwtFail kcFresh ⟨[], 0⟩ pmSample
      smSample "/api/person/abc" "" Method.GET "" Value.null).2
    ["person", "abc"] rfl [] ⟨[], 0⟩ false rfl AuthToken.default rfl).2.1
    ["abc"] rfl

end SaApi
